import Mathlib

/-!
Shallow embedding of the restate partition state machine
(src/src/worker/src/partition/state_machine.rs) and of the rocksdb
manager watchdog reconciliation (src/crates/rocksdb/src/db_manager.rs),
with theorems checking the natural-language specification against them.

Machine integers (u64 sequence numbers, u32 entry indices) are modelled
as Nat: the counters are specified as process-wide monotone and never
rewound, so wrap-around is outside the modelled behaviour. Rust
mutation of the effects buffer becomes explicit list passing; fallible
reads become Except; debug assertions and the panicking enum_inner
macro become the explicit fatal outcome (the spec declares assertion
failures fatal in release as well).
-/

namespace Restate

/-- Byte strings, modelled as lists of byte values. -/
abbrev Bytes := List Nat

/-- Identity of a stateful entity: (service_name, key). -/
structure ServiceId where
  service_name : String
  key : Bytes
deriving DecidableEq

/-- Opaque value unique per invocation attempt, modelled as Nat. -/
abbrev InvocationId := Nat

/-- Pair of a service identity and an invocation identity. -/
structure ServiceInvocationId where
  service_id : ServiceId
  invocation_id : InvocationId
deriving DecidableEq

/-- Modelled from the spec: the common crate ServiceInvocation is not in
src/; the state machine only reads its id field, the remaining request
fields are carried opaquely. -/
structure ServiceInvocation where
  id : ServiceInvocationId
  method_name : String
  argument : Bytes
deriving DecidableEq

/-- Per-ServiceId invocation status (crate::partition::InvocationStatus,
shape fixed by the spec data model and by every match in
state_machine.rs). -/
inductive InvocationStatus where
  | Free : InvocationStatus
  | Invoked : InvocationId → InvocationStatus
  | Suspended : InvocationId → InvocationStatus
deriving DecidableEq

/-- Zero-based position in a journal (u32 in the source). -/
abbrev EntryIndex := Nat

/-- Monotonically increasing per-journal counter. -/
abbrev JournalRevision := Nat

/-- Journal status returned by the state reader. -/
structure JournalStatus where
  revision : JournalRevision
  length : Nat
deriving DecidableEq

/-- Journal entry type tags (journal crate), shape fixed by the match on
entry.header.ty in state_machine.rs. -/
inductive EntryType where
  | Invoke : EntryType
  | BackgroundInvoke : EntryType
  | CompleteAwakeable : EntryType
  | SetState : EntryType
  | ClearState : EntryType
  | Sleep : EntryType
  | GetState : EntryType
  | Custom : Nat → EntryType
  | PollInputStream : EntryType
  | OutputStream : EntryType
  | Awakeable : EntryType
deriving DecidableEq

/-- Header of a raw (undecoded) journal entry; the state machine only
reads its type tag. -/
structure RawHeader where
  ty : EntryType
deriving DecidableEq

/-- Raw journal entry: header plus undecoded payload bytes. -/
structure RawEntry where
  header : RawHeader
  payload : Bytes
deriving DecidableEq

/-- Modelled from the spec: journal crate InvokeRequest; the state
machine forwards it opaquely to create_service_invocation. -/
structure InvokeRequest where
  service_name : String
  method_name : String
  argument : Bytes
deriving DecidableEq

/-- Modelled from the spec: decoded Invoke entry; only the request field
is read by the state machine. -/
structure InvokeEntry where
  request : InvokeRequest
deriving DecidableEq

/-- Modelled from the spec: decoded BackgroundInvoke entry. -/
structure BackgroundInvokeEntry where
  request : InvokeRequest
deriving DecidableEq

/-- Modelled from the spec: decoded CompleteAwakeable entry, forwarded
opaquely to create_response_for_awakeable_entry. -/
structure CompleteAwakeableEntry where
  payload : Bytes
deriving DecidableEq

/-- Modelled from the spec: decoded SetState entry. -/
structure SetStateEntry where
  key : Bytes
  value : Bytes
deriving DecidableEq

/-- Modelled from the spec: decoded ClearState entry. -/
structure ClearStateEntry where
  key : Bytes
deriving DecidableEq

/-- Modelled from the spec: decoded Sleep entry; wake_up_time as u64. -/
structure SleepEntry where
  wake_up_time : Nat
deriving DecidableEq

/-- Decoded journal entry (journal crate Entry); variants whose payload
the state machine never inspects carry no fields here. -/
inductive Entry where
  | Invoke : InvokeEntry → Entry
  | BackgroundInvoke : BackgroundInvokeEntry → Entry
  | CompleteAwakeable : CompleteAwakeableEntry → Entry
  | SetState : SetStateEntry → Entry
  | ClearState : ClearStateEntry → Entry
  | Sleep : SleepEntry → Entry
  | GetState : Entry
  | Custom : Entry
  | PollInputStream : Entry
  | OutputStream : Entry
  | Awakeable : Entry
deriving DecidableEq

/-- Result of a completed invocation or completion value. -/
inductive CompletionResult where
  | Success : Bytes → CompletionResult
  | Failure : Nat → String → CompletionResult
deriving DecidableEq

/-- A result value addressed to a journal entry index. -/
structure Completion where
  entry_index : EntryIndex
  result : CompletionResult
deriving DecidableEq

/-- Modelled from the spec: the common crate ResponseResult converts
into CompletionResult; modelled as the same type, the conversion the
identity. -/
abbrev ResponseResult := CompletionResult

/-- Response message carried by Command.Response and the outbox. -/
structure Response where
  id : ServiceInvocationId
  entry_index : EntryIndex
  result : ResponseResult
deriving DecidableEq

/-- Message enqueued into the partition outbox. -/
inductive OutboxMessage where
  | Invocation : ServiceInvocation → OutboxMessage
  | Response : Response → OutboxMessage
deriving DecidableEq

/-- Modelled from the spec: the effect buffer methods of
crate::partition::effects::Effects, one tagged variant per method used
by the state machine (spec section 4.G). -/
inductive Effect where
  | invoke_service : ServiceInvocation → Effect
  | enqueue_into_inbox : Nat → ServiceInvocation → Effect
  | pop_inbox : ServiceId → Nat → Effect
  | set_state : ServiceId → Bytes → Bytes → Effect
  | clear_state : ServiceId → Bytes → Effect
  | store_and_forward_completion : ServiceInvocationId → Completion → Effect
  | store_completion : ServiceInvocationId → Completion → Effect
  | append_journal_entry : ServiceInvocationId → EntryIndex → RawEntry → Effect
  | append_awakeable_entry : ServiceInvocationId → EntryIndex → RawEntry → Effect
  | register_timer : Nat → ServiceInvocationId → EntryIndex → Effect
  | delete_timer : Nat → ServiceId → EntryIndex → Effect
  | resume_service : ServiceInvocationId → Effect
  | suspend_service : ServiceInvocationId → Effect
  | drop_journal : ServiceId → Effect
  | free_service : ServiceId → Effect
  | enqueue_into_outbox : Nat → OutboxMessage → Effect
  | truncate_outbox : Nat → Effect
deriving DecidableEq

/-- Modelled from the spec: the invoker OutputEffect kind (spec section
6: kind is one of JournalEntry, Suspended, End, Failed), shape fixed by
the match in state_machine.rs. -/
inductive Kind where
  | JournalEntry : EntryIndex → RawEntry → Kind
  | Suspended : JournalRevision → Kind
  | End : Kind
  | Failed : String → Kind
deriving DecidableEq

/-- Modelled from the spec: invoker OutputEffect record. -/
structure OutputEffect where
  service_invocation_id : ServiceInvocationId
  kind : Kind
deriving DecidableEq

/-- Input command of the partition state machine. -/
inductive Command where
  | Invoker : OutputEffect → Command
  | Timer : ServiceInvocationId → EntryIndex → Nat → Command
  | OutboxTruncation : Nat → Command
  | Invocation : ServiceInvocation → Command
  | Response : Response → Command
deriving DecidableEq

/-- Read-only state access used by on_apply; every read may fail with a
storage error SErr. -/
structure StateReader (SErr : Type) where
  get_invocation_status : ServiceId → Except SErr InvocationStatus
  peek_inbox : ServiceId → Except SErr (Option (Nat × ServiceInvocation))
  get_journal_status : ServiceId → Except SErr JournalStatus

/-- The persisted sequence counters owned by the state machine. -/
structure StateMachine where
  inbox_seq_number : Nat
  outbox_seq_number : Nat
deriving DecidableEq

/-- The codec and the three message constructors the state machine
depends on. deserialize embeds RawEntryCodec::deserialize. The other
three are modelled from the spec: create_service_invocation,
create_response_for_awakeable_entry and create_response are
unimplemented in this snapshot (spec section 9, open question 1), so
they are abstract parameters of the development. -/
structure ExternalFns (CErr : Type) where
  deserialize : RawEntry → Except CErr Entry
  create_service_invocation :
    InvokeRequest → Option (ServiceInvocationId × EntryIndex) → ServiceInvocation
  create_response_for_awakeable_entry : CompleteAwakeableEntry → Response
  create_response : CompletionResult → Response

/-- Error type of on_apply: wrapped storage errors and codec errors. -/
inductive Error (S C : Type) where
  | state : S → Error S C
  | codec : C → Error S C
deriving DecidableEq

/-- Outcome of applying a command: new counters with the grown effects
buffer, an error, or a fatal invariant violation (a panicking
debug_assert or enum_inner mismatch in the source). -/
inductive ApplyResult (S C : Type) where
  | ok : StateMachine → List Effect → ApplyResult S C
  | error : Error S C → ApplyResult S C
  | fatal : ApplyResult S C
deriving DecidableEq

/-- The debug_assert guard of the Command.Invoker arm: the status must
be Invoked with the invocation id of the incoming invoker effect. -/
def invoker_status_matches
    (status : InvocationStatus) (service_invocation_id : ServiceInvocationId) : Bool :=
  match status with
  | InvocationStatus.Invoked invocation_id =>
    decide (service_invocation_id.invocation_id = invocation_id)
  | _ => false

/-- StateMachine::send_message: enqueue into the outbox and bump the
outbox sequence number. -/
def send_message (sm : StateMachine) (message : OutboxMessage) (effects : List Effect) :
    StateMachine × List Effect :=
  ({ sm with outbox_seq_number := sm.outbox_seq_number + 1 },
   effects ++ [Effect.enqueue_into_outbox sm.outbox_seq_number message])

/-- StateMachine::handle_completion: route a completion by the current
invocation status of the target service. -/
def handle_completion {SErr : Type} (service_invocation_id : ServiceInvocationId)
    (completion : Completion) (state : StateReader SErr) (effects : List Effect) :
    Except SErr (List Effect) :=
  match state.get_invocation_status service_invocation_id.service_id with
  | Except.error e => Except.error e
  | Except.ok status =>
    match status with
    | InvocationStatus.Invoked invocation_id =>
      if invocation_id = service_invocation_id.invocation_id then
        Except.ok (effects ++
          [Effect.store_and_forward_completion service_invocation_id completion])
      else
        Except.ok effects
    | InvocationStatus.Suspended invocation_id =>
      if invocation_id = service_invocation_id.invocation_id then
        Except.ok (effects ++
          [Effect.resume_service service_invocation_id,
           Effect.store_completion service_invocation_id completion])
      else
        Except.ok effects
    | InvocationStatus.Free => Except.ok effects

/-- StateMachine::complete_invocation: drop the journal, pop and invoke
the next inbox item or free the service, and send the response. -/
def complete_invocation {SErr CErr : Type} (ext : ExternalFns CErr) (sm : StateMachine)
    (service_invocation_id : ServiceInvocationId) (completion_result : CompletionResult)
    (state : StateReader SErr) (effects : List Effect) :
    Except SErr (StateMachine × List Effect) :=
  let effects1 := effects ++ [Effect.drop_journal service_invocation_id.service_id]
  match state.peek_inbox service_invocation_id.service_id with
  | Except.error e => Except.error e
  | Except.ok (some (inbox_sequence_number, service_invocation)) =>
    let effects2 := effects1 ++
      [Effect.pop_inbox service_invocation_id.service_id inbox_sequence_number,
       Effect.invoke_service service_invocation]
    Except.ok (send_message sm
      (OutboxMessage.Response (ext.create_response completion_result)) effects2)
  | Except.ok none =>
    let effects2 := effects1 ++ [Effect.free_service service_invocation_id.service_id]
    Except.ok (send_message sm
      (OutboxMessage.Response (ext.create_response completion_result)) effects2)

/-- StateMachine::on_apply: apply one command, growing the effects
buffer and updating the sequence counters. -/
def on_apply {SErr CErr : Type} (ext : ExternalFns CErr) (sm : StateMachine)
    (command : Command) (effects : List Effect) (state : StateReader SErr) :
    ApplyResult SErr CErr :=
  match command with
  | Command.Invocation service_invocation =>
    match state.get_invocation_status service_invocation.id.service_id with
    | Except.error e => ApplyResult.error (Error.state e)
    | Except.ok status =>
      if status = InvocationStatus.Free then
        ApplyResult.ok sm (effects ++ [Effect.invoke_service service_invocation])
      else
        ApplyResult.ok { sm with inbox_seq_number := sm.inbox_seq_number + 1 }
          (effects ++ [Effect.enqueue_into_inbox sm.inbox_seq_number service_invocation])
  | Command.Response r =>
    let completion : Completion := { entry_index := r.entry_index, result := r.result }
    match handle_completion r.id completion state effects with
    | Except.error e => ApplyResult.error (Error.state e)
    | Except.ok effects1 => ApplyResult.ok sm effects1
  | Command.Invoker output_effect =>
    let service_invocation_id := output_effect.service_invocation_id
    match state.get_invocation_status service_invocation_id.service_id with
    | Except.error e => ApplyResult.error (Error.state e)
    | Except.ok status =>
      if invoker_status_matches status service_invocation_id then
        match output_effect.kind with
        | Kind.JournalEntry entry_index entry =>
          match state.get_journal_status service_invocation_id.service_id with
          | Except.error e => ApplyResult.error (Error.state e)
          | Except.ok journal_status =>
            if entry_index = journal_status.length + 1 then
              match entry.header.ty with
              | EntryType.Invoke =>
                match ext.deserialize entry with
                | Except.error e => ApplyResult.error (Error.codec e)
                | Except.ok (Entry.Invoke invoke_entry) =>
                  let service_invocation := ext.create_service_invocation
                    invoke_entry.request (some (service_invocation_id, entry_index))
                  let step := send_message sm
                    (OutboxMessage.Invocation service_invocation) effects
                  ApplyResult.ok step.1 (step.2 ++
                    [Effect.append_journal_entry service_invocation_id entry_index entry])
                | Except.ok _ => ApplyResult.fatal
              | EntryType.BackgroundInvoke =>
                match ext.deserialize entry with
                | Except.error e => ApplyResult.error (Error.codec e)
                | Except.ok (Entry.BackgroundInvoke background_invoke_entry) =>
                  let service_invocation := ext.create_service_invocation
                    background_invoke_entry.request none
                  let step := send_message sm
                    (OutboxMessage.Invocation service_invocation) effects
                  ApplyResult.ok step.1 (step.2 ++
                    [Effect.append_journal_entry service_invocation_id entry_index entry])
                | Except.ok _ => ApplyResult.fatal
              | EntryType.CompleteAwakeable =>
                match ext.deserialize entry with
                | Except.error e => ApplyResult.error (Error.codec e)
                | Except.ok (Entry.CompleteAwakeable complete_awakeable_entry) =>
                  let response :=
                    ext.create_response_for_awakeable_entry complete_awakeable_entry
                  let step := send_message sm (OutboxMessage.Response response) effects
                  ApplyResult.ok step.1 (step.2 ++
                    [Effect.append_journal_entry service_invocation_id entry_index entry])
                | Except.ok _ => ApplyResult.fatal
              | EntryType.SetState =>
                match ext.deserialize entry with
                | Except.error e => ApplyResult.error (Error.codec e)
                | Except.ok (Entry.SetState set_state_entry) =>
                  ApplyResult.ok sm (effects ++
                    [Effect.set_state service_invocation_id.service_id
                       set_state_entry.key set_state_entry.value,
                     Effect.append_journal_entry service_invocation_id entry_index entry])
                | Except.ok _ => ApplyResult.fatal
              | EntryType.ClearState =>
                match ext.deserialize entry with
                | Except.error e => ApplyResult.error (Error.codec e)
                | Except.ok (Entry.ClearState clear_state_entry) =>
                  ApplyResult.ok sm (effects ++
                    [Effect.clear_state service_invocation_id.service_id
                       clear_state_entry.key,
                     Effect.append_journal_entry service_invocation_id entry_index entry])
                | Except.ok _ => ApplyResult.fatal
              | EntryType.Sleep =>
                match ext.deserialize entry with
                | Except.error e => ApplyResult.error (Error.codec e)
                | Except.ok (Entry.Sleep sleep_entry) =>
                  ApplyResult.ok sm (effects ++
                    [Effect.register_timer sleep_entry.wake_up_time
                       service_invocation_id entry_index,
                     Effect.append_journal_entry service_invocation_id entry_index entry])
                | Except.ok _ => ApplyResult.fatal
              | EntryType.GetState =>
                ApplyResult.ok sm (effects ++
                  [Effect.append_journal_entry service_invocation_id entry_index entry])
              | EntryType.Custom _ =>
                ApplyResult.ok sm (effects ++
                  [Effect.append_journal_entry service_invocation_id entry_index entry])
              | EntryType.PollInputStream =>
                ApplyResult.ok sm (effects ++
                  [Effect.append_journal_entry service_invocation_id entry_index entry])
              | EntryType.OutputStream =>
                ApplyResult.ok sm (effects ++
                  [Effect.append_journal_entry service_invocation_id entry_index entry])
              | EntryType.Awakeable =>
                ApplyResult.ok sm (effects ++
                  [Effect.append_awakeable_entry service_invocation_id entry_index entry])
            else
              ApplyResult.fatal
        | Kind.Suspended expected_journal_revision =>
          match state.get_journal_status service_invocation_id.service_id with
          | Except.error e => ApplyResult.error (Error.state e)
          | Except.ok journal_status =>
            if journal_status.revision > expected_journal_revision then
              ApplyResult.ok sm (effects ++ [Effect.resume_service service_invocation_id])
            else
              ApplyResult.ok sm (effects ++ [Effect.suspend_service service_invocation_id])
        | Kind.End =>
          match complete_invocation ext sm service_invocation_id
            (CompletionResult.Success []) state effects with
          | Except.error e => ApplyResult.error (Error.state e)
          | Except.ok (sm1, effects1) => ApplyResult.ok sm1 effects1
        | Kind.Failed err =>
          match complete_invocation ext sm service_invocation_id
            (CompletionResult.Failure 502 err) state effects with
          | Except.error e => ApplyResult.error (Error.state e)
          | Except.ok (sm1, effects1) => ApplyResult.ok sm1 effects1
      else
        ApplyResult.fatal
  | Command.OutboxTruncation index =>
    ApplyResult.ok sm (effects ++ [Effect.truncate_outbox index])
  | Command.Timer service_invocation_id entry_index wake_up_time =>
    let effects1 := effects ++
      [Effect.delete_timer wake_up_time service_invocation_id.service_id entry_index]
    let completion : Completion :=
      { entry_index := entry_index, result := CompletionResult.Success [] }
    match handle_completion service_invocation_id completion state effects1 with
    | Except.error e => ApplyResult.error (Error.state e)
    | Except.ok effects2 => ApplyResult.ok sm effects2

/-- Run a whole command sequence through on_apply, accumulating the
emitted effects; stops at the first error or fatal outcome. -/
def run {SErr CErr : Type} (ext : ExternalFns CErr) (sm : StateMachine)
    (commands : List Command) (state : StateReader SErr) (effects : List Effect) :
    ApplyResult SErr CErr :=
  match commands with
  | [] => ApplyResult.ok sm effects
  | command :: rest =>
    match on_apply ext sm command effects state with
    | ApplyResult.ok sm1 effects1 => run ext sm1 rest state effects1
    | r => r

/-- Modelled from the spec: the slice of restate_types CommonOptions
read by DbWatchdog::on_config_update. rocksdb_total_memtables_size is a
derived accessor outside src/, modelled as a stored value; the stall
threshold Duration is modelled by its millisecond count. -/
structure CommonOptions where
  rocksdb_total_memory_size : Nat
  rocksdb_total_memtables_size : Nat
  rocksdb_write_stall_threshold_millis : Nat
deriving DecidableEq

/-- The watchdog-visible state touched by on_config_update: the manager
shutting_down flag, the stall threshold atomic, the shared block cache
capacity, the write buffer manager size, and the options snapshot taken
when the watchdog started (the source never overwrites it). -/
structure WatchdogState where
  shutting_down : Bool
  stall_detection_millis : Nat
  cache_capacity : Nat
  write_buffer_size : Nat
  current_common_opts : CommonOptions
deriving DecidableEq

/-- DbWatchdog::on_config_update: ignore updates while shutting down;
otherwise reconcile the stall threshold, the total memory cap (block
cache capacity plus write buffer ceiling) and the total memtables cap
against the loaded options. -/
def on_config_update (w : WatchdogState) (new_common_opts : CommonOptions) : WatchdogState :=
  if w.shutting_down then w
  else
    let w1 :=
      if w.stall_detection_millis ≠ new_common_opts.rocksdb_write_stall_threshold_millis then
        { w with stall_detection_millis :=
            new_common_opts.rocksdb_write_stall_threshold_millis }
      else w
    let w2 :=
      if new_common_opts.rocksdb_total_memory_size ≠
          w.current_common_opts.rocksdb_total_memory_size then
        { w1 with cache_capacity := new_common_opts.rocksdb_total_memory_size,
                  write_buffer_size := new_common_opts.rocksdb_total_memtables_size }
      else w1
    let w3 :=
      if new_common_opts.rocksdb_total_memtables_size ≠
          w.current_common_opts.rocksdb_total_memtables_size then
        { w2 with write_buffer_size := new_common_opts.rocksdb_total_memtables_size }
      else w2
    w3

/-- Concrete service identity used by the witnesses. -/
def demoServiceId : ServiceId := { service_name := "greeter", key := [97] }

/-- Concrete invocation identity number one. -/
def demoSid1 : ServiceInvocationId := { service_id := demoServiceId, invocation_id := 1 }

/-- Concrete invocation identity number two. -/
def demoSid2 : ServiceInvocationId := { service_id := demoServiceId, invocation_id := 2 }

/-- Concrete incoming invocation carrying demoSid1. -/
def demoInvocation1 : ServiceInvocation :=
  { id := demoSid1, method_name := "greet", argument := [] }

/-- Concrete incoming invocation carrying demoSid2. -/
def demoInvocation2 : ServiceInvocation :=
  { id := demoSid2, method_name := "greet", argument := [] }

/-- Concrete response message used by the demo constructors. -/
def demoResponseMsg : Response :=
  { id := demoSid1, entry_index := 0, result := CompletionResult.Success [] }

/-- Concrete completion used by the witnesses. -/
def demoCompletion : Completion :=
  { entry_index := 3, result := CompletionResult.Success [] }

/-- Concrete counters: inbox at 7, outbox at 20 (spec scenarios B and F). -/
def demoSM : StateMachine := { inbox_seq_number := 7, outbox_seq_number := 20 }

/-- Reader over a store whose every service is Free with empty inbox. -/
def demoReaderFree : StateReader Unit :=
  { get_invocation_status := fun _ => Except.ok InvocationStatus.Free,
    peek_inbox := fun _ => Except.ok none,
    get_journal_status := fun _ => Except.ok { revision := 0, length := 0 } }

/-- Reader over a store where every service is Invoked by invocation 1,
the inbox front is (3, demoInvocation2) and the journal has revision 42
and length 4 (spec scenarios C, D, F). -/
def demoReaderInvoked : StateReader Unit :=
  { get_invocation_status := fun _ => Except.ok (InvocationStatus.Invoked 1),
    peek_inbox := fun _ => Except.ok (some (3, demoInvocation2)),
    get_journal_status := fun _ => Except.ok { revision := 42, length := 4 } }

/-- Reader over a store where every service is Suspended by invocation 1. -/
def demoReaderSuspended : StateReader Unit :=
  { get_invocation_status := fun _ => Except.ok (InvocationStatus.Suspended 1),
    peek_inbox := fun _ => Except.ok none,
    get_journal_status := fun _ => Except.ok { revision := 42, length := 4 } }

/-- Concrete external functions: a codec that rejects every raw entry,
and constant message constructors. -/
def demoExt : ExternalFns Unit :=
  { deserialize := fun _ => Except.error (),
    create_service_invocation := fun _ _ => demoInvocation2,
    create_response_for_awakeable_entry := fun _ => demoResponseMsg,
    create_response := fun _ => demoResponseMsg }

/-- Raw journal entry tagged Invoke with an undecodable payload. -/
def demoInvokeRaw : RawEntry := { header := { ty := EntryType.Invoke }, payload := [] }

/-- Raw journal entry tagged Awakeable. -/
def demoAwakeableRaw : RawEntry := { header := { ty := EntryType.Awakeable }, payload := [] }

/-- Concrete options snapshot the demo watchdog started from. -/
def demoOptsOld : CommonOptions :=
  { rocksdb_total_memory_size := 100, rocksdb_total_memtables_size := 50,
    rocksdb_write_stall_threshold_millis := 10 }

/-- Concrete options snapshot carrying a new memory cap. -/
def demoOptsNew : CommonOptions :=
  { rocksdb_total_memory_size := 200, rocksdb_total_memtables_size := 80,
    rocksdb_write_stall_threshold_millis := 10 }

/-- Concrete running watchdog state matching demoOptsOld. -/
def demoWatchdog : WatchdogState :=
  { shutting_down := false, stall_detection_millis := 10, cache_capacity := 100,
    write_buffer_size := 50, current_common_opts := demoOptsOld }

/-- Claim C1: for every initial pair of sequence counters, every command
sequence, and every pure StateReader, two runs of on_apply over the same
command sequence from the same initial counters and the same reader
produce identical effect sequences and identical results: the state
machine is deterministic. -/
theorem run_deterministic {SErr CErr : Type} (ext : ExternalFns CErr) (sm : StateMachine)
    (commands : List Command) (state : StateReader SErr)
    (r1 r2 : ApplyResult SErr CErr)
    (h1 : r1 = run ext sm commands state [])
    (h2 : r2 = run ext sm commands state []) : r1 = r2 :=
  h1.trans h2.symm

/-- Witness for claim C1 at a concrete command sequence. -/
theorem run_deterministic_witness :
    run demoExt { inbox_seq_number := 0, outbox_seq_number := 0 }
      [Command.OutboxTruncation 5, Command.Invocation demoInvocation1]
      demoReaderFree [] =
    run demoExt { inbox_seq_number := 0, outbox_seq_number := 0 }
      [Command.OutboxTruncation 5, Command.Invocation demoInvocation1]
      demoReaderFree [] :=
  run_deterministic demoExt { inbox_seq_number := 0, outbox_seq_number := 0 }
    [Command.OutboxTruncation 5, Command.Invocation demoInvocation1]
    demoReaderFree _ _ rfl rfl

/-- Claim C2: for every Command.Invocation si, if the status of the
service of si is Free then on_apply emits exactly invoke_service si and
leaves the counters unchanged; otherwise it emits exactly
enqueue_into_inbox at the current inbox_seq_number and increments
inbox_seq_number by exactly one. -/
theorem on_apply_invocation_cases {SErr CErr : Type} (ext : ExternalFns CErr)
    (sm : StateMachine) (si : ServiceInvocation) (effects : List Effect)
    (state : StateReader SErr) (status : InvocationStatus)
    (h : state.get_invocation_status si.id.service_id = Except.ok status) :
    (status = InvocationStatus.Free →
      on_apply ext sm (Command.Invocation si) effects state =
        ApplyResult.ok sm (effects ++ [Effect.invoke_service si])) ∧
    (status ≠ InvocationStatus.Free →
      on_apply ext sm (Command.Invocation si) effects state =
        ApplyResult.ok { sm with inbox_seq_number := sm.inbox_seq_number + 1 }
          (effects ++ [Effect.enqueue_into_inbox sm.inbox_seq_number si])) := by
  constructor
  · intro hfree
    simp [on_apply, h, hfree]
  · intro hbusy
    simp [on_apply, h, hbusy]

/-- Witness for claim C2: spec scenario A, a new invocation on a free
entity. -/
theorem on_apply_invocation_cases_witness :
    on_apply demoExt demoSM (Command.Invocation demoInvocation1) [] demoReaderFree =
      ApplyResult.ok demoSM [Effect.invoke_service demoInvocation1] :=
  (on_apply_invocation_cases demoExt demoSM demoInvocation1 [] demoReaderFree
    InvocationStatus.Free rfl).1 rfl

/-- Claim C4: for every completion addressed to a service whose status
is Suspended with the completion invocation id, completion handling
emits exactly two effects, resume_service followed by store_completion,
resume_service strictly earlier in the effects stream. -/
theorem handle_completion_suspended_resume_then_store {SErr : Type}
    (sid : ServiceInvocationId) (completion : Completion) (state : StateReader SErr)
    (effects : List Effect) (id : InvocationId)
    (h : state.get_invocation_status sid.service_id =
      Except.ok (InvocationStatus.Suspended id))
    (hid : id = sid.invocation_id) :
    handle_completion sid completion state effects =
      Except.ok (effects ++
        [Effect.resume_service sid, Effect.store_completion sid completion]) := by
  simp [handle_completion, h, hid]

/-- Witness for claim C4 at a concrete suspended service. -/
theorem handle_completion_suspended_resume_then_store_witness :
    handle_completion demoSid1 demoCompletion demoReaderSuspended [] =
      Except.ok [Effect.resume_service demoSid1,
                 Effect.store_completion demoSid1 demoCompletion] :=
  handle_completion_suspended_resume_then_store demoSid1 demoCompletion
    demoReaderSuspended [] 1 rfl rfl

/-- Claim C5: for every Command.Invoker Suspended with an expected
journal revision, on_apply emits exactly resume_service when the actual
revision read from the state is strictly greater than the expected one,
and exactly suspend_service otherwise. -/
theorem on_apply_invoker_suspended_cases {SErr CErr : Type} (ext : ExternalFns CErr)
    (sm : StateMachine) (sid : ServiceInvocationId) (effects : List Effect)
    (state : StateReader SErr) (expected_journal_revision : JournalRevision)
    (id : InvocationId) (journal_status : JournalStatus)
    (hstatus : state.get_invocation_status sid.service_id =
      Except.ok (InvocationStatus.Invoked id))
    (hid : sid.invocation_id = id)
    (hjournal : state.get_journal_status sid.service_id = Except.ok journal_status) :
    on_apply ext sm
      (Command.Invoker
        { service_invocation_id := sid, kind := Kind.Suspended expected_journal_revision })
      effects state =
      (if journal_status.revision > expected_journal_revision then
        ApplyResult.ok sm (effects ++ [Effect.resume_service sid])
      else
        ApplyResult.ok sm (effects ++ [Effect.suspend_service sid])) := by
  simp [on_apply, hstatus, hjournal, invoker_status_matches, hid]

/-- Witness for claim C5: spec scenario D, suspension racing a
completion, actual revision 42 against expected 41. -/
theorem on_apply_invoker_suspended_cases_witness :
    on_apply demoExt demoSM
      (Command.Invoker { service_invocation_id := demoSid1, kind := Kind.Suspended 41 })
      [] demoReaderInvoked =
      ApplyResult.ok demoSM [Effect.resume_service demoSid1] := by
  have h := on_apply_invoker_suspended_cases demoExt demoSM demoSid1 [] demoReaderInvoked
    41 1 { revision := 42, length := 4 } rfl rfl rfl
  simpa using h

/-- Claim C3: every completion routed through completion handling (from
Command.Response or the synthetic completion of Command.Timer) whose
target status is Free, or Invoked or Suspended with a different
invocation id, appends no effect for that completion: handle_completion
returns the buffer unchanged, Command.Response leaves the buffer and
counters unchanged, and Command.Timer appends only its delete_timer
effect. -/
theorem handle_completion_stale_no_effects {SErr CErr : Type} (ext : ExternalFns CErr)
    (sm : StateMachine) (sid : ServiceInvocationId) (state : StateReader SErr)
    (effects : List Effect) (status : InvocationStatus)
    (h : state.get_invocation_status sid.service_id = Except.ok status)
    (hstale : status = InvocationStatus.Free ∨
      (∃ id, id ≠ sid.invocation_id ∧
        (status = InvocationStatus.Invoked id ∨ status = InvocationStatus.Suspended id))) :
    (∀ completion : Completion,
      handle_completion sid completion state effects = Except.ok effects) ∧
    (∀ (entry_index : EntryIndex) (result : ResponseResult),
      on_apply ext sm
        (Command.Response { id := sid, entry_index := entry_index, result := result })
        effects state = ApplyResult.ok sm effects) ∧
    (∀ (entry_index : EntryIndex) (wake_up_time : Nat),
      on_apply ext sm (Command.Timer sid entry_index wake_up_time) effects state =
        ApplyResult.ok sm
          (effects ++ [Effect.delete_timer wake_up_time sid.service_id entry_index])) := by
  have key : ∀ (completion : Completion) (effs : List Effect),
      handle_completion sid completion state effs = Except.ok effs := by
    intro completion effs
    rcases hstale with hfree | ⟨id, hne, hinv | hsus⟩
    · simp [handle_completion, h, hfree]
    · simp [handle_completion, h, hinv, hne]
    · simp [handle_completion, h, hsus, hne]
  refine ⟨fun completion => key completion effects, fun entry_index result => ?_,
    fun entry_index wake_up_time => ?_⟩
  · simp [on_apply, key]
  · simp [on_apply, key]

/-- Witness for claim C3: spec scenario E, a completion for a stale
invocation id produces no effects. -/
theorem handle_completion_stale_no_effects_witness :
    handle_completion demoSid2 demoCompletion demoReaderInvoked [] = Except.ok [] :=
  (handle_completion_stale_no_effects demoExt demoSM demoSid2 demoReaderInvoked []
    (InvocationStatus.Invoked 1) rfl
    (Or.inr ⟨1, by decide, Or.inl rfl⟩)).1 demoCompletion

/-- Claim C6: for every Command.Invoker End on an Invoked service whose
inbox peek yields (seq, next), on_apply emits in order drop_journal,
pop_inbox at seq, invoke_service next and enqueue_into_outbox at the
current outbox_seq_number carrying the response built from
Success(empty); it emits no free_service and outbox_seq_number
increments by exactly one. -/
theorem on_apply_invoker_end_drains_inbox {SErr CErr : Type} (ext : ExternalFns CErr)
    (sm : StateMachine) (sid : ServiceInvocationId) (effects : List Effect)
    (state : StateReader SErr) (id : InvocationId) (seq : Nat)
    (next : ServiceInvocation)
    (hstatus : state.get_invocation_status sid.service_id =
      Except.ok (InvocationStatus.Invoked id))
    (hid : sid.invocation_id = id)
    (hpeek : state.peek_inbox sid.service_id = Except.ok (some (seq, next))) :
    on_apply ext sm (Command.Invoker { service_invocation_id := sid, kind := Kind.End })
      effects state =
      ApplyResult.ok { sm with outbox_seq_number := sm.outbox_seq_number + 1 }
        (effects ++
          [Effect.drop_journal sid.service_id,
           Effect.pop_inbox sid.service_id seq,
           Effect.invoke_service next,
           Effect.enqueue_into_outbox sm.outbox_seq_number
             (OutboxMessage.Response
               (ext.create_response (CompletionResult.Success [])))]) ∧
    Effect.free_service sid.service_id ∉
      [Effect.drop_journal sid.service_id,
       Effect.pop_inbox sid.service_id seq,
       Effect.invoke_service next,
       Effect.enqueue_into_outbox sm.outbox_seq_number
         (OutboxMessage.Response (ext.create_response (CompletionResult.Success [])))] := by
  constructor
  · simp [on_apply, hstatus, invoker_status_matches, hid, complete_invocation, hpeek,
      send_message]
  · simp

/-- Witness for claim C6: spec scenario F, invocation end with a
non-empty inbox, outbox counter 20 advancing to 21. -/
theorem on_apply_invoker_end_drains_inbox_witness :
    on_apply demoExt demoSM
      (Command.Invoker { service_invocation_id := demoSid1, kind := Kind.End })
      [] demoReaderInvoked =
      ApplyResult.ok { inbox_seq_number := 7, outbox_seq_number := 21 }
        [Effect.drop_journal demoServiceId,
         Effect.pop_inbox demoServiceId 3,
         Effect.invoke_service demoInvocation2,
         Effect.enqueue_into_outbox 20 (OutboxMessage.Response demoResponseMsg)] := by
  have h := (on_apply_invoker_end_drains_inbox demoExt demoSM demoSid1 [] demoReaderInvoked
    1 3 demoInvocation2 rfl rfl rfl).1
  simpa [demoSM, demoSid1, demoExt, demoServiceId] using h

/-- Claim C8: a configuration update delivered to a running watchdog
carrying a total memory cap different from the current snapshot makes
the reconcile step set the block cache capacity to the new cap and the
write buffer manager size to the new total memtables size. -/
theorem on_config_update_memory_cap (w : WatchdogState) (new_common_opts : CommonOptions)
    (hrun : w.shutting_down = false)
    (hchanged : new_common_opts.rocksdb_total_memory_size ≠
      w.current_common_opts.rocksdb_total_memory_size) :
    (on_config_update w new_common_opts).cache_capacity =
      new_common_opts.rocksdb_total_memory_size ∧
    (on_config_update w new_common_opts).write_buffer_size =
      new_common_opts.rocksdb_total_memtables_size := by
  simp only [on_config_update, hrun, Bool.false_eq_true, if_false]
  split_ifs <;> simp_all

/-- Witness for claim C8: memory cap raised from 100 to 200. -/
theorem on_config_update_memory_cap_witness :
    (on_config_update demoWatchdog demoOptsNew).cache_capacity = 200 ∧
    (on_config_update demoWatchdog demoOptsNew).write_buffer_size = 80 :=
  on_config_update_memory_cap demoWatchdog demoOptsNew rfl (by decide)

/-- Claim C9: Command.Response, Command.Timer, Command.OutboxTruncation,
and Command.Invocation on a Free service all leave both
inbox_seq_number and outbox_seq_number of the state machine unchanged:
completion handling never touches the counters. -/
theorem on_apply_counter_frame {SErr CErr : Type} (ext : ExternalFns CErr)
    (sm : StateMachine) (command : Command) (effects : List Effect)
    (state : StateReader SErr)
    (h : (∃ r, command = Command.Response r) ∨
         (∃ sid entry_index wake_up_time,
           command = Command.Timer sid entry_index wake_up_time) ∨
         (∃ n, command = Command.OutboxTruncation n) ∨
         (∃ si, command = Command.Invocation si ∧
           state.get_invocation_status si.id.service_id =
             Except.ok InvocationStatus.Free)) :
    ∀ sm1 effects1, on_apply ext sm command effects state = ApplyResult.ok sm1 effects1 →
      sm1.inbox_seq_number = sm.inbox_seq_number ∧
      sm1.outbox_seq_number = sm.outbox_seq_number := by
  intro sm1 effects1 happly
  rcases h with ⟨r, rfl⟩ | ⟨sid, entry_index, wake_up_time, rfl⟩ | ⟨n, rfl⟩ |
    ⟨si, rfl, hfree⟩
  · cases hc : handle_completion r.id
        { entry_index := r.entry_index, result := r.result } state effects with
    | error e => simp [on_apply, hc] at happly
    | ok effs =>
      simp [on_apply, hc] at happly
      simp [happly.1.symm]
  · cases hc : handle_completion sid
        { entry_index := entry_index, result := CompletionResult.Success [] } state
        (effects ++ [Effect.delete_timer wake_up_time sid.service_id entry_index]) with
    | error e => simp [on_apply, hc] at happly
    | ok effs =>
      simp [on_apply, hc] at happly
      simp [happly.1.symm]
  · simp [on_apply] at happly
    simp [happly.1.symm]
  · simp [on_apply, hfree] at happly
    simp [happly.1.symm]

/-- Witness for claim C9: a response routed to a free service leaves the
counters 7 and 20 unchanged. -/
theorem on_apply_counter_frame_witness :
    demoSM.inbox_seq_number = demoSM.inbox_seq_number ∧
    demoSM.outbox_seq_number = demoSM.outbox_seq_number :=
  on_apply_counter_frame demoExt demoSM (Command.Response demoResponseMsg) []
    demoReaderFree (Or.inl ⟨demoResponseMsg, rfl⟩) demoSM [] rfl

/-- Claim C10: on_apply can return a codec error only while handling an
Invoker JournalEntry whose entry type is Invoke, BackgroundInvoke,
CompleteAwakeable, SetState, ClearState or Sleep; entries of the other
types are appended without being deserialized and never yield a codec
error. -/
theorem on_apply_codec_error_only_from_journal_entry {SErr CErr : Type}
    (ext : ExternalFns CErr) (sm : StateMachine) (command : Command)
    (effects : List Effect) (state : StateReader SErr) (ce : CErr)
    (h : on_apply ext sm command effects state = ApplyResult.error (Error.codec ce)) :
    ∃ sid entry_index entry,
      command = Command.Invoker
        { service_invocation_id := sid, kind := Kind.JournalEntry entry_index entry } ∧
      (entry.header.ty = EntryType.Invoke ∨
       entry.header.ty = EntryType.BackgroundInvoke ∨
       entry.header.ty = EntryType.CompleteAwakeable ∨
       entry.header.ty = EntryType.SetState ∨
       entry.header.ty = EntryType.ClearState ∨
       entry.header.ty = EntryType.Sleep) := by
  cases command with
  | Invocation si =>
    cases hs : state.get_invocation_status si.id.service_id with
    | error e => simp [on_apply, hs] at h
    | ok status =>
      simp only [on_apply, hs] at h
      split at h <;> simp at h
  | Response r =>
    cases hc : handle_completion r.id
        { entry_index := r.entry_index, result := r.result } state effects with
    | error e => simp [on_apply, hc] at h
    | ok effs => simp [on_apply, hc] at h
  | OutboxTruncation n => simp [on_apply] at h
  | Timer sid entry_index wake_up_time =>
    cases hc : handle_completion sid
        { entry_index := entry_index, result := CompletionResult.Success [] } state
        (effects ++ [Effect.delete_timer wake_up_time sid.service_id entry_index]) with
    | error e => simp [on_apply, hc] at h
    | ok effs => simp [on_apply, hc] at h
  | Invoker output_effect =>
    obtain ⟨sid, kind⟩ := output_effect
    cases hs : state.get_invocation_status sid.service_id with
    | error e => simp [on_apply, hs] at h
    | ok status =>
      by_cases hm : invoker_status_matches status sid = true
      · cases kind with
        | JournalEntry entry_index entry =>
          cases hj : state.get_journal_status sid.service_id with
          | error e => simp [on_apply, hs, hm, hj] at h
          | ok journal_status =>
            by_cases hlen : entry_index = journal_status.length + 1
            · cases hty : entry.header.ty with
              | Invoke =>
                exact ⟨sid, entry_index, entry, rfl, Or.inl hty⟩
              | BackgroundInvoke =>
                exact ⟨sid, entry_index, entry, rfl, Or.inr (Or.inl hty)⟩
              | CompleteAwakeable =>
                exact ⟨sid, entry_index, entry, rfl, Or.inr (Or.inr (Or.inl hty))⟩
              | SetState =>
                exact ⟨sid, entry_index, entry, rfl,
                  Or.inr (Or.inr (Or.inr (Or.inl hty)))⟩
              | ClearState =>
                exact ⟨sid, entry_index, entry, rfl,
                  Or.inr (Or.inr (Or.inr (Or.inr (Or.inl hty))))⟩
              | Sleep =>
                exact ⟨sid, entry_index, entry, rfl,
                  Or.inr (Or.inr (Or.inr (Or.inr (Or.inr hty))))⟩
              | GetState => simp [on_apply, hs, hm, hj, hlen, hty] at h
              | Custom n => simp [on_apply, hs, hm, hj, hlen, hty] at h
              | PollInputStream => simp [on_apply, hs, hm, hj, hlen, hty] at h
              | OutputStream => simp [on_apply, hs, hm, hj, hlen, hty] at h
              | Awakeable => simp [on_apply, hs, hm, hj, hlen, hty] at h
            · simp [on_apply, hs, hm, hj, hlen] at h
        | Suspended expected =>
          cases hj : state.get_journal_status sid.service_id with
          | error e => simp [on_apply, hs, hm, hj] at h
          | ok journal_status =>
            simp only [on_apply, hs, hm, if_true, hj] at h
            split at h <;> simp at h
        | End =>
          cases hc : complete_invocation ext sm sid (CompletionResult.Success [])
              state effects with
          | error e => simp [on_apply, hs, hm, hc] at h
          | ok p => simp [on_apply, hs, hm, hc] at h
        | Failed err =>
          cases hc : complete_invocation ext sm sid (CompletionResult.Failure 502 err)
              state effects with
          | error e => simp [on_apply, hs, hm, hc] at h
          | ok p => simp [on_apply, hs, hm, hc] at h
      · simp [on_apply, hs, hm] at h

/-- Witness for claim C10: a journal entry tagged Invoke whose payload
the codec rejects yields a codec error, and the claim locates it. -/
theorem on_apply_codec_error_only_from_journal_entry_witness :
    ∃ sid entry_index entry,
      Command.Invoker
        { service_invocation_id := demoSid1, kind := Kind.JournalEntry 5 demoInvokeRaw } =
      Command.Invoker
        { service_invocation_id := sid, kind := Kind.JournalEntry entry_index entry } ∧
      (entry.header.ty = EntryType.Invoke ∨
       entry.header.ty = EntryType.BackgroundInvoke ∨
       entry.header.ty = EntryType.CompleteAwakeable ∨
       entry.header.ty = EntryType.SetState ∨
       entry.header.ty = EntryType.ClearState ∨
       entry.header.ty = EntryType.Sleep) :=
  on_apply_codec_error_only_from_journal_entry demoExt demoSM
    (Command.Invoker
      { service_invocation_id := demoSid1, kind := Kind.JournalEntry 5 demoInvokeRaw })
    [] demoReaderInvoked () rfl

/-- Claim C7: for every Command.Invoker JournalEntry the machine asserts
entry_index = journal.length + 1 against the stored journal length
(fatal otherwise), and every append_journal_entry effect it emits
carries an entry_index equal to the stored journal length plus one. -/
theorem on_apply_journal_entry_density {SErr CErr : Type} (ext : ExternalFns CErr)
    (sm : StateMachine) (sid : ServiceInvocationId) (entry_index : EntryIndex)
    (entry : RawEntry) (effects : List Effect) (state : StateReader SErr)
    (id : InvocationId) (journal_status : JournalStatus)
    (hstatus : state.get_invocation_status sid.service_id =
      Except.ok (InvocationStatus.Invoked id))
    (hid : sid.invocation_id = id)
    (hjournal : state.get_journal_status sid.service_id = Except.ok journal_status) :
    (entry_index ≠ journal_status.length + 1 →
      on_apply ext sm
        (Command.Invoker
          { service_invocation_id := sid, kind := Kind.JournalEntry entry_index entry })
        effects state = ApplyResult.fatal) ∧
    (∀ sm1 effects1,
      on_apply ext sm
        (Command.Invoker
          { service_invocation_id := sid, kind := Kind.JournalEntry entry_index entry })
        effects state = ApplyResult.ok sm1 effects1 →
      ∀ sid1 idx e, Effect.append_journal_entry sid1 idx e ∈ effects1 →
        Effect.append_journal_entry sid1 idx e ∈ effects ∨
        idx = journal_status.length + 1) := by
  constructor
  · intro hne
    simp [on_apply, hstatus, invoker_status_matches, hid, hjournal, hne]
  · intro sm1 effects1 h sid1 idx e hmem
    by_cases heq : entry_index = journal_status.length + 1
    · cases hdes : ext.deserialize entry with
      | error ce =>
        simp [on_apply, hstatus, invoker_status_matches, hid, hjournal, heq,
          send_message, hdes] at h
        split at h
        all_goals try simp at h
        all_goals obtain ⟨h1, h2⟩ := h
        all_goals subst h2
        all_goals simp at hmem
        all_goals tauto
      | ok val =>
        cases val
        all_goals simp [on_apply, hstatus, invoker_status_matches, hid, hjournal, heq,
          send_message, hdes] at h
        all_goals split at h
        all_goals try simp at h
        all_goals obtain ⟨h1, h2⟩ := h
        all_goals subst h2
        all_goals simp at hmem
        all_goals tauto
    · have hfatal : on_apply ext sm
          (Command.Invoker
            { service_invocation_id := sid, kind := Kind.JournalEntry entry_index entry })
          effects state = ApplyResult.fatal := by
        simp [on_apply, hstatus, invoker_status_matches, hid, hjournal, heq]
      rw [hfatal] at h
      simp at h

/-- Witness for claim C7: entry index 3 against stored length 4 trips
the next-in-sequence assertion. -/
theorem on_apply_journal_entry_density_witness :
    on_apply demoExt demoSM
      (Command.Invoker
        { service_invocation_id := demoSid1, kind := Kind.JournalEntry 3 demoAwakeableRaw })
      [] demoReaderInvoked = ApplyResult.fatal :=
  (on_apply_journal_entry_density demoExt demoSM demoSid1 3 demoAwakeableRaw []
    demoReaderInvoked 1 { revision := 42, length := 4 } rfl rfl rfl).1 (by decide)

end Restate
